import Mathlib

/-!
Shallow embedding of src/password.c from lastpass-cli: the pinentry escaping
codec, the raw-terminal fallback prompt, the pinentry protocol session driver
of password_prompt, and the escalating child-shutdown sequence.

Byte strings are modelled as `List Nat` of byte values; C strings are NUL-free
byte lists. A protocol response line is modelled as its logical content, the
bytes before the terminating line feed, so getline on the agent stream yields
the line content followed by byte 10.
-/

/-- The byte list read back as a C string: bytes up to the first NUL, modelling
what strlen-based consumers of a buffer observe. -/
def cstr : List Nat → List Nat
  | [] => []
  | c :: rest => if c = 0 then [] else c :: cstr rest

/-- Models starts_with(a, b) from util.h: b is a prefix of a. -/
def starts_with (s pre : List Nat) : Bool := pre.isPrefixOf s

/-- The two-byte response token "OK". -/
def okTok : List Nat := [79, 75]

/-- The one-byte data-line token "D". -/
def dTok : List Nat := [68]

/-- Is the byte a C-locale isspace character (as consulted by strtoul). -/
def isSpaceByte (c : Nat) : Bool := c = 32 || (9 ≤ c && c ≤ 13)

/-- Is the byte an ASCII hexadecimal digit. -/
def isHexDigit (c : Nat) : Bool :=
  (48 ≤ c && c ≤ 57) || (97 ≤ c && c ≤ 102) || (65 ≤ c && c ≤ 70)

/-- The value of an ASCII hexadecimal digit byte. -/
def hexVal (c : Nat) : Nat :=
  if c ≤ 57 then c - 48 else if c ≤ 70 then c - 55 else c - 87

/-- Value strtoul(p, NULL, 16) parses from a one-character string: a single
hexadecimal digit, or 0 when the character is not one. -/
def strtoulHex1 (b : Nat) : Nat := if isHexDigit b then hexVal b else 0

/-- Models the byte stored by unescaped[j] = strtoul(hex, NULL, 16) in
pinentry_unescape (src/password.c line 125), where hex is the two-character
string [a, b]: strtoul skips leading whitespace, accepts an optional sign
(unsigned negation, reduced mod 256 by the store into char), treats a lone
"0x" as the parsed digit 0, accumulates hexadecimal digits and stops at the
first non-digit, yielding 0 when no digit is parsed. -/
def strtoul16_2 (a b : Nat) : Nat :=
  if isSpaceByte a then strtoulHex1 b
  else if a = 43 then strtoulHex1 b
  else if a = 45 then (256 - strtoulHex1 b % 256) % 256
  else if isHexDigit a then
    (if isHexDigit b then 16 * hexVal a + hexVal b else hexVal a) % 256
  else 0

/-- pinentry_escape on a non-NULL string (src/password.c lines 65-103): each
byte 37 ('%') becomes [37, 50, 53] ("%25"), each 13 (CR) becomes
[37, 48, 100] ("%0d"), each 10 (LF) becomes [37, 48, 97] ("%0a"), every other
byte passes through unchanged. -/
def pinentry_escape_go : List Nat → List Nat
  | [] => []
  | c :: rest =>
    (if c = 37 then [37, 50, 53]
     else if c = 13 then [37, 48, 100]
     else if c = 10 then [37, 48, 97]
     else [c]) ++ pinentry_escape_go rest

/-- pinentry_escape (src/password.c lines 65-103): NULL in, NULL out,
otherwise the byte-wise percent encoding. -/
def pinentry_escape : Option (List Nat) → Option (List Nat)
  | none => none
  | some s => some (pinentry_escape_go s)

/-- pinentry_unescape on a non-NULL string (src/password.c lines 105-131): a
byte 37 ('%') with at least two bytes following consumes those two bytes and
emits the strtoul base-16 value of the pair; a byte 37 with fewer than two
bytes remaining stops the output (the i + 2 >= len break); any other byte
passes through unchanged. -/
def pinentry_unescape_go : List Nat → List Nat
  | [] => []
  | c :: rest =>
    if c = 37 then
      match rest with
      | a :: b :: rest2 => strtoul16_2 a b :: pinentry_unescape_go rest2
      | _ => []
    else c :: pinentry_unescape_go rest

/-- pinentry_unescape (src/password.c lines 105-131): NULL in, NULL out,
otherwise the percent decoding of the buffer contents. -/
def pinentry_unescape : Option (List Nat) → Option (List Nat)
  | none => none
  | some s => some (pinentry_unescape_go s)

/-- A saved terminal mode: the local-mode flag word that the code edits, plus
the remaining termios fields copied verbatim. -/
structure Termios where
  c_lflag : Nat
  c_rest : Nat
deriving DecidableEq

/-- The ICANON local-mode bit. -/
def ICANON : Nat := 2

/-- The ECHO local-mode bit. -/
def ECHO : Nat := 8

/-- The masked mode built at src/password.c lines 39-40: a copy of the saved
mode with ICANON and ECHO cleared from the 32-bit c_lflag word. -/
def mask_echo_of (t : Termios) : Termios :=
  { t with c_lflag := t.c_lflag &&& ((2 ^ 32 - 1) ^^^ (ICANON ||| ECHO)) }

/-- getline against a byte stream: fails (returns NULL semantics) exactly when
the stream is already at end of input, otherwise yields the bytes up to and
including the first line feed, or all remaining bytes when the stream ends
without one. -/
def takeLine : List Nat → List Nat
  | [] => []
  | c :: rest => if c = 10 then [10] else c :: takeLine rest

/-- The getline call of the fallback prompt (src/password.c line 45) on the
remaining standard-input bytes. -/
def getline_stdin (stdin : List Nat) : Option (List Nat) :=
  if stdin = [] then none else some (takeLine stdin)

/-- The strrchr-and-truncate step at src/password.c lines 51-53: when the line
contains a line feed, the string is cut at the last one; otherwise it is
returned unchanged. -/
def chopLastLF (l : List Nat) : List Nat :=
  if 10 ∈ l then ((l.reverse.dropWhile (fun c => c != 10)).drop 1).reverse else l

/-- Observable result of password_prompt_fallback: the returned secret (none
models the NULL return on read failure), the successive tcsetattr calls made,
the terminal mode in force on return, and the count of transient prompt lines
cleared at the end. -/
structure FallbackOut where
  secret : Option (List Nat)
  tc_trace : List Termios
  tc_final : Termios
  lines_cleared : Nat
deriving DecidableEq

/-- password_prompt_fallback (src/password.c lines 21-63): after printing the
description, optional error and prompt, when standard input is a terminal the
current mode old is saved and the masked mode is set; one line is read; a
failed read returns NULL, a successful read is truncated at its last line
feed; on either path, when standard input is a terminal the saved mode is
restored before returning. -/
def password_prompt_fallback (prompt error : Option (List Nat)) (desc : List Nat)
    (istty : Bool) (old : Termios) (stdin : List Nat) : FallbackOut :=
  let trace := (if istty then [mask_echo_of old] else []) ++ (if istty then [old] else [])
  { secret :=
      match getline_stdin stdin with
      | none => none
      | some line => some (chopLastLF line)
    tc_trace := trace
    tc_final := trace.getLastD old
    lines_cleared := if error.isSome then 4 else 3 }

/-- The environment values password_prompt consults: the fallback toggle
LPASS_DISABLE_PINENTRY, TERM, the controlling terminal name from ttyname(0),
and DISPLAY; none models an unset value (NULL from getenv or ttyname). -/
structure Env where
  lpass_disable_pinentry : Option (List Nat)
  term : Option (List Nat)
  tty : Option (List Nat)
  display : Option (List Nat)
deriving DecidableEq

/-- One check() step (src/password.c lines 195-199): read the next response
line; failure to read, or a line not starting with "OK", jumps to the
dead-agent path (modelled as none); success yields the remaining stream. -/
def checkConsume : List (List Nat) → Option (List (List Nat))
  | [] => none
  | l :: rest => if starts_with (l ++ [10]) okTok then some rest else none

/-- One option() step (src/password.c lines 211-221): when the source value is
absent nothing is sent and nothing is read; when it is present an OPTION
command is sent and the response is passed through check(). -/
def optionConsume : Option (List Nat) → List (List Nat) → Option (List (List Nat))
  | none, s => some s
  | some _, s => checkConsume s

/-- Result of the pre-GETPIN exchange: either the remaining response stream
together with the current value of the prompt variable, or a jump to the
dead-agent path carrying the current value of the prompt variable. -/
inductive PreResult where
  | ok (rest : List (List Nat)) (promptVar : Option (List Nat))
  | dead (promptVar : Option (List Nat))
deriving DecidableEq

/-- The handshake and configuration exchange of password_prompt
(src/password.c lines 223-245): the greeting, SETTITLE, SETPROMPT, SETERROR
only when an error string is supplied, and SETDESC are each followed by a
check(); before SETPROMPT is sent the prompt variable is rebound to
"prompt:" when a prompt is supplied. -/
def config_pre (prompt error : Option (List Nat)) (s : List (List Nat)) : PreResult :=
  match checkConsume s with
  | none => PreResult.dead prompt
  | some s1 =>
    match checkConsume s1 with
    | none => PreResult.dead prompt
    | some s2 =>
      let promptColon := prompt.map (fun p => p ++ [58])
      match checkConsume s2 with
      | none => PreResult.dead promptColon
      | some s3 =>
        match (if error.isSome then checkConsume s3 else some s3) with
        | none => PreResult.dead promptColon
        | some s4 =>
          match checkConsume s4 with
          | none => PreResult.dead promptColon
          | some s5 => PreResult.ok s5 promptColon

/-- The three OPTION commands of password_prompt (src/password.c lines
247-249): ttytype from TERM, ttyname from ttyname(0), display from DISPLAY,
each sent and checked only when its value is present. -/
def options_pre (env : Env) (s : List (List Nat)) : Option (List (List Nat)) :=
  (optionConsume env.term s).bind fun s1 =>
    (optionConsume env.tty s1).bind fun s2 =>
      optionConsume env.display s2

/-- The whole exchange before GETPIN: configuration followed by the options;
any failed check jumps to the dead-agent path with the prompt variable as it
stands at that point. -/
def session_pre (env : Env) (prompt error : Option (List Nat)) (s : List (List Nat)) : PreResult :=
  match config_pre prompt error s with
  | PreResult.dead p => PreResult.dead p
  | PreResult.ok rest p2 =>
    match options_pre env rest with
    | none => PreResult.dead p2
    | some rest2 => PreResult.ok rest2 p2

/-- strlcat(dst, src, size): appends bytes of src to dst, truncating so that
the result holds at most size - 1 bytes; dst is returned unchanged when it
already fills the size. -/
def strlcat (dst src : List Nat) (size : Nat) : List Nat :=
  if dst.length < size then dst ++ src.take (size - dst.length - 1) else dst

/-- Outcome of the GETPIN response loop (src/password.c lines 254-270):
assembly ended by an "OK" line keeping the secret, assembly ended by any
other non-"D" line discarding the partial secret, or the stream ending
(getline failure) with the partial secret still held. -/
inductive GetpinResult where
  | assembled (secret : List Nat)
  | cancelled (discarded : List Nat)
  | dead (held : List Nat)
deriving DecidableEq

/-- The GETPIN response loop (src/password.c lines 254-270). Each line is read
by getline, so carries its trailing line feed, and len is its string length.
A line starting with "D" whose len is at least 3 grows the buffer from
total_len to total_len + len - 3 and strlcat appends the bytes after the
two-character prefix, the trailing line feed falling to the strlcat
truncation; a shorter "D" line is skipped; an "OK" line ends assembly keeping
the secret; any other line discards it; stream end is the dead-agent jump. -/
def getpin_loop : List (List Nat) → List Nat → GetpinResult
  | [], pw => GetpinResult.dead pw
  | l :: rest, pw =>
    if starts_with (l ++ [10]) dTok then
      if 3 ≤ (l ++ [10]).length then
        getpin_loop rest (strlcat pw ((l ++ [10]).drop 2) (pw.length + 1 + (l ++ [10]).length - 3))
      else getpin_loop rest pw
    else if starts_with (l ++ [10]) okTok then GetpinResult.assembled pw
    else GetpinResult.cancelled pw

/-- What password_prompt does at the end of a session: return a secret (none
models the NULL return), invoke the raw-terminal fallback prompt with the
given prompt, error and description arguments, or terminate the process
through die(). -/
inductive Outcome where
  | returned (secret : Option (List Nat))
  | fallback (prompt error : Option (List Nat)) (desc : List Nat)
  | fatal
deriving DecidableEq

/-- One release of a secret-holding buffer: the bytes it held and whether a
secure wipe (secure_clear / secure_clear_str) overwrote them before the
release. -/
structure FreeEvent where
  content : List Nat
  wiped : Bool
deriving DecidableEq

/-- The dead_pinentry tail of password_prompt (src/password.c lines 288-308),
after the child has been reaped: exit status 0 returns NULL, exit status 76
(the _exit code of the child when execlp on the pinentry program fails,
src/password.c line 173) invokes the fallback prompt with the current prompt
variable, the error and the formatted description, and any other status is
fatal. A partial secret still held on this path is released by the
_cleanup_free_ attribute with no wipe. -/
def dead_pinentry (status : Nat) (promptVar error : Option (List Nat)) (desc : List Nat)
    (held : Option (List Nat)) : Outcome × List FreeEvent :=
  (if status = 0 then Outcome.returned none
   else if status = 76 then Outcome.fallback promptVar error desc
   else Outcome.fatal,
   match held with
   | none => []
   | some pw => [⟨pw, false⟩])

/-- The agent session of password_prompt (src/password.c lines 157-308) for a
given environment, prompt, error and formatted description, against the
stream of response lines the agent writes (logical line contents, free of NUL
and line feed) and the exit status the reaped child eventually reports. On a
completed GETPIN the returned secret is pinentry_unescape of the assembled
buffer and the raw buffer is wiped by secure_clear_str before its release; on
a cancelling line the partial buffer is released by a bare free with no wipe;
any failed read or failed check ends in dead_pinentry. -/
def run_session (env : Env) (prompt error : Option (List Nat)) (desc : List Nat)
    (stream : List (List Nat)) (status : Nat) : Outcome × List FreeEvent :=
  match session_pre env prompt error stream with
  | PreResult.dead p => dead_pinentry status p error desc none
  | PreResult.ok rest p2 =>
    match getpin_loop rest [] with
    | GetpinResult.assembled pw => (Outcome.returned (pinentry_unescape (some pw)), [⟨pw, true⟩])
    | GetpinResult.cancelled pw => (Outcome.returned (pinentry_unescape none), [⟨pw, false⟩])
    | GetpinResult.dead pw => dead_pinentry status p2 error desc (some pw)

/-- Observable result of password_prompt (src/password.c lines 133-308): the
outcome, whether the pipes were created and the agent process spawned, and
the trace of secret-buffer releases. -/
structure PromptOut where
  outcome : Outcome
  spawned : Bool
  freeEvents : List FreeEvent
deriving DecidableEq

/-- password_prompt (src/password.c lines 133-308): when
LPASS_DISABLE_PINENTRY is set and strcmp-equal to "1" the fallback prompt is
invoked up front with the original arguments and no pipe or child is ever
created; otherwise the agent session runs. -/
def password_prompt (env : Env) (prompt error : Option (List Nat)) (desc : List Nat)
    (stream : List (List Nat)) (status : Nat) : PromptOut :=
  if env.lpass_disable_pinentry = some [49] then
    { outcome := Outcome.fallback prompt error desc, spawned := false, freeEvents := [] }
  else
    let r := run_session env prompt error desc stream status
    { outcome := r.1, spawned := true, freeEvents := r.2 }

/-- Whether the child was found already exited at each of the three
non-blocking waitpid probes of the shutdown sequence. -/
structure ChildOracle where
  reaped1 : Bool
  reaped2 : Bool
  reaped3 : Bool
deriving DecidableEq

/-- One step of the shutdown escalation at src/password.c lines 288-299. -/
inductive SAction where
  | reap_nohang
  | sleep1
  | sigterm
  | sigkill
  | reap_block
deriving DecidableEq

/-- The shutdown escalation of password_prompt (src/password.c lines 288-299):
a non-blocking reap; if the child has not exited, sleep one unit and retry
non-blocking; if still not exited, send SIGTERM, sleep one unit and retry
non-blocking; if still not exited, send SIGKILL and reap blocking. -/
def shutdown_actions (c : ChildOracle) : List SAction :=
  SAction.reap_nohang ::
    (if c.reaped1 then [] else
      SAction.sleep1 :: SAction.reap_nohang ::
        (if c.reaped2 then [] else
          SAction.sigterm :: SAction.sleep1 :: SAction.reap_nohang ::
            (if c.reaped3 then [] else [SAction.sigkill, SAction.reap_block])))

/-! ## Shared lemmas -/

theorem strtoul_hex_25 : strtoul16_2 50 53 = 37 := by decide

theorem strtoul_hex_0d : strtoul16_2 48 100 = 13 := by decide

theorem strtoul_hex_0a : strtoul16_2 48 97 = 10 := by decide

theorem unescape_go_escape_go (s : List Nat) :
    pinentry_unescape_go (pinentry_escape_go s) = s := by
  induction s with
  | nil => rfl
  | cons b t ih =>
    by_cases h37 : b = 37
    · subst h37
      simp [pinentry_escape_go, pinentry_unescape_go, strtoul_hex_25, ih]
    · by_cases h13 : b = 13
      · subst h13
        simp [pinentry_escape_go, pinentry_unescape_go, strtoul_hex_0d, ih]
      · by_cases h10 : b = 10
        · subst h10
          simp [pinentry_escape_go, pinentry_unescape_go, strtoul_hex_0a, ih]
        · simp only [pinentry_escape_go, if_neg h37, if_neg h13, if_neg h10,
            List.singleton_append]
          rw [pinentry_unescape_go.eq_def]
          simp [h37, ih]

theorem cstr_of_no_nul (s : List Nat) (h : 0 ∉ s) : cstr s = s := by
  induction s with
  | nil => rfl
  | cons b t ih =>
    simp only [List.mem_cons, not_or] at h
    have hb : b ≠ 0 := fun hb => h.1 hb.symm
    simp [cstr, hb, ih h.2]

theorem escape_go_id (s : List Nat) (h : ∀ c ∈ s, c ≠ 37 ∧ c ≠ 13 ∧ c ≠ 10) :
    pinentry_escape_go s = s := by
  induction s with
  | nil => rfl
  | cons b t ih =>
    have hb := h b (List.mem_cons_self b t)
    have ht : ∀ c ∈ t, c ≠ 37 ∧ c ≠ 13 ∧ c ≠ 10 := fun c hc => h c (List.mem_cons_of_mem b hc)
    simp [pinentry_escape_go, hb.1, hb.2.1, hb.2.2, ih ht]

/-! ## Claim theorems for the escaping codec -/

/-- C3: for every byte string s containing no NUL byte, pinentry_unescape of
pinentry_escape of s is s again, both as the returned buffer and as the
C string a caller reads from it. -/
theorem c3_roundtrip (s : List Nat) (h : 0 ∉ s) :
    pinentry_unescape (pinentry_escape (some s)) = some s ∧
    cstr (pinentry_unescape_go (pinentry_escape_go s)) = s := by
  have hr := unescape_go_escape_go s
  exact ⟨by simp [pinentry_escape, pinentry_unescape, hr], by rw [hr]; exact cstr_of_no_nul s h⟩

theorem c3_roundtrip_witness :
    pinentry_unescape (pinentry_escape (some [97, 37, 13, 10, 98])) = some [97, 37, 13, 10, 98] :=
  (c3_roundtrip [97, 37, 13, 10, 98] (by decide)).1

/-- C9: pinentry_escape maps a NULL string to NULL, replaces a leading '%'
with "%25", a leading CR with "%0d", a leading LF with "%0a", passes any
other leading byte through unchanged, and leaves a string with no '%', CR or
LF bytes exactly as it is. -/
theorem c9_escape (t s : List Nat) (b : Nat)
    (hclean : ∀ c ∈ s, c ≠ 37 ∧ c ≠ 13 ∧ c ≠ 10)
    (hb : b ≠ 37 ∧ b ≠ 13 ∧ b ≠ 10) :
    pinentry_escape none = none ∧
    pinentry_escape_go (37 :: t) = 37 :: 50 :: 53 :: pinentry_escape_go t ∧
    pinentry_escape_go (13 :: t) = 37 :: 48 :: 100 :: pinentry_escape_go t ∧
    pinentry_escape_go (10 :: t) = 37 :: 48 :: 97 :: pinentry_escape_go t ∧
    pinentry_escape_go (b :: t) = b :: pinentry_escape_go t ∧
    pinentry_escape_go s = s := by
  refine ⟨rfl, by simp [pinentry_escape_go], by simp [pinentry_escape_go],
    by simp [pinentry_escape_go], ?_, escape_go_id s hclean⟩
  simp [pinentry_escape_go, hb.1, hb.2.1, hb.2.2]

theorem c9_escape_witness :
    pinentry_escape_go (65 :: [120]) = 65 :: pinentry_escape_go [120] ∧
    pinentry_escape_go [97, 98, 99] = [97, 98, 99] :=
  ⟨(c9_escape [120] [97, 98, 99] 65 (by decide) (by decide)).2.2.2.2.1,
   (c9_escape [120] [97, 98, 99] 65 (by decide) (by decide)).2.2.2.2.2⟩

theorem takeLine_no_lf (l rest : List Nat) (h : 10 ∉ l) :
    takeLine (l ++ 10 :: rest) = l ++ [10] := by
  induction l with
  | nil => simp [takeLine]
  | cons c t ih =>
    simp only [List.mem_cons, not_or] at h
    have hc : c ≠ 10 := fun hc => h.1 hc.symm
    simp [takeLine, hc, ih h.2]

theorem chopLastLF_append (l : List Nat) : chopLastLF (l ++ [10]) = l := by
  have hmem : 10 ∈ l ++ [10] := by simp
  simp only [chopLastLF, if_pos hmem, List.reverse_append, List.reverse_cons,
    List.reverse_nil, List.nil_append, List.singleton_append, List.dropWhile_cons]
  simp

/-! ## Claim theorems for the fallback prompt -/

/-- C7: when standard input is an interactive terminal, the fallback prompt
sets the terminal mode exactly twice, masked then back to the mode captured
at entry, on every input (the end-of-stream input included), so the mode in
force on return is the entry mode and the restore happens exactly once. -/
theorem c7_terminal_restore (old : Termios) (stdin : List Nat)
    (prompt error : Option (List Nat)) (desc : List Nat) :
    (password_prompt_fallback prompt error desc true old stdin).tc_trace =
      [mask_echo_of old, old] ∧
    (password_prompt_fallback prompt error desc true old stdin).tc_final = old ∧
    (password_prompt_fallback prompt error desc true old []).secret = none := by
  refine ⟨?_, ?_, ?_⟩ <;> simp [password_prompt_fallback, getline_stdin, List.getLastD]

/-- C8: the fallback prompt returns NULL when reading a line from standard
input fails at end of stream, and otherwise strips exactly the one trailing
line terminator from the line read, returning the bytes typed before it. -/
theorem c8_fallback_input (istty : Bool) (old : Termios) (prompt error : Option (List Nat))
    (desc : List Nat) (l rest : List Nat) (h : 10 ∉ l) :
    (password_prompt_fallback prompt error desc istty old []).secret = none ∧
    (password_prompt_fallback prompt error desc istty old (l ++ 10 :: rest)).secret = some l := by
  constructor
  · simp [password_prompt_fallback, getline_stdin]
  · have hne : l ++ 10 :: rest ≠ [] := by simp
    simp [password_prompt_fallback, getline_stdin, hne, takeLine_no_lf l rest h,
      chopLastLF_append l]

theorem c8_fallback_input_witness :
    (password_prompt_fallback (some [77]) (some [69]) [68] true ⟨27, 5⟩ []).secret = none ∧
    (password_prompt_fallback (some [77]) (some [69]) [68] true ⟨27, 5⟩
        ([104, 117, 110, 116, 101, 114, 50] ++ 10 :: [])).secret =
      some [104, 117, 110, 116, 101, 114, 50] :=
  c8_fallback_input true ⟨27, 5⟩ (some [77]) (some [69]) [68]
    [104, 117, 110, 116, 101, 114, 50] [] (by decide)

/-! ## Claim theorems for process lifecycle -/

/-- C6: the shutdown of the agent child is exactly the escalation of a
non-blocking reap, a sleep and non-blocking retry, a SIGTERM with a sleep and
a non-blocking retry, and finally a SIGKILL with a blocking reap; a child
that ignores the graceful signal is therefore force-killed and the sequence
ends in the blocking reap. -/
theorem c6_escalation (c : ChildOracle) :
    (c.reaped1 = true → shutdown_actions c = [SAction.reap_nohang]) ∧
    (c.reaped1 = false → c.reaped2 = true →
      shutdown_actions c = [SAction.reap_nohang, SAction.sleep1, SAction.reap_nohang]) ∧
    (c.reaped1 = false → c.reaped2 = false → c.reaped3 = true →
      shutdown_actions c = [SAction.reap_nohang, SAction.sleep1, SAction.reap_nohang,
        SAction.sigterm, SAction.sleep1, SAction.reap_nohang]) ∧
    (c.reaped1 = false → c.reaped2 = false → c.reaped3 = false →
      shutdown_actions c = [SAction.reap_nohang, SAction.sleep1, SAction.reap_nohang,
        SAction.sigterm, SAction.sleep1, SAction.reap_nohang, SAction.sigkill,
        SAction.reap_block] ∧
      SAction.sigkill ∈ shutdown_actions c ∧
      (shutdown_actions c).getLast? = some SAction.reap_block) := by
  obtain ⟨r1, r2, r3⟩ := c
  cases r1 <;> cases r2 <;> cases r3 <;> simp [shutdown_actions]

theorem c6_escalation_witness :
    shutdown_actions ⟨false, false, false⟩ = [SAction.reap_nohang, SAction.sleep1,
      SAction.reap_nohang, SAction.sigterm, SAction.sleep1, SAction.reap_nohang,
      SAction.sigkill, SAction.reap_block] ∧
    SAction.sigkill ∈ shutdown_actions ⟨false, false, false⟩ ∧
    (shutdown_actions ⟨false, false, false⟩).getLast? = some SAction.reap_block :=
  (c6_escalation ⟨false, false, false⟩).2.2.2 rfl rfl rfl

/-! ## Claim theorems for the session driver -/

/-- C10: password_prompt takes the up-front fallback path, never spawning the
agent, exactly when LPASS_DISABLE_PINENTRY is set to the string "1", and on
that path the fallback receives the original prompt, error and description;
any other environment value proceeds with the agent session. -/
theorem c10_disable_toggle (env : Env) (prompt error : Option (List Nat)) (desc : List Nat)
    (stream : List (List Nat)) (status : Nat) :
    ((password_prompt env prompt error desc stream status).spawned = false ↔
      env.lpass_disable_pinentry = some [49]) ∧
    (env.lpass_disable_pinentry = some [49] →
      (password_prompt env prompt error desc stream status).outcome =
        Outcome.fallback prompt error desc) := by
  by_cases h : env.lpass_disable_pinentry = some [49] <;>
    simp [password_prompt, h]

theorem c10_disable_toggle_witness :
    (password_prompt ⟨some [49], none, none, none⟩ (some [112]) none [100] [] 0).spawned =
      false ∧
    (password_prompt ⟨some [49], none, none, none⟩ (some [112]) none [100] [] 0).outcome =
      Outcome.fallback (some [112]) none [100] ∧
    (password_prompt ⟨some [116, 114, 117, 101], none, none, none⟩ (some [112]) none [100]
        [] 0).spawned = true :=
  ⟨(c10_disable_toggle ⟨some [49], none, none, none⟩ (some [112]) none [100] [] 0).1.mpr rfl,
   (c10_disable_toggle ⟨some [49], none, none, none⟩ (some [112]) none [100] [] 0).2 rfl,
   by decide⟩

/-- C5: when the agent produces no greeting, as happens when the spawned child
could not execute the pinentry program, the dead-agent path interprets the
reaped exit status: 0 returns NULL and is not an error, the sentinel 76
invokes the fallback prompt with the same prompt, error and description
password_prompt received, and any other status is fatal. -/
theorem c5_dead_agent (env : Env) (prompt error : Option (List Nat)) (desc : List Nat)
    (status : Nat) (henv : env.lpass_disable_pinentry ≠ some [49]) :
    (password_prompt env prompt error desc [] status).spawned = true ∧
    (status = 0 →
      (password_prompt env prompt error desc [] status).outcome = Outcome.returned none) ∧
    (status = 76 →
      (password_prompt env prompt error desc [] status).outcome =
        Outcome.fallback prompt error desc) ∧
    (status ≠ 0 → status ≠ 76 →
      (password_prompt env prompt error desc [] status).outcome = Outcome.fatal) := by
  have hrun : ∀ st : Nat, run_session env prompt error desc [] st =
      dead_pinentry st prompt error desc none := by
    intro st
    simp [run_session, session_pre, config_pre, checkConsume]
  refine ⟨by simp [password_prompt, henv], ?_, ?_, ?_⟩
  · intro h1
    subst h1
    simp [password_prompt, henv, hrun 0, dead_pinentry]
  · intro h1
    subst h1
    simp [password_prompt, henv, hrun 76, dead_pinentry]
  · intro h1 h2
    simp [password_prompt, henv, hrun status, dead_pinentry, h1, h2]

theorem c5_dead_agent_witness :
    (password_prompt ⟨none, none, none, none⟩ (some [112]) none [100] [] 76).outcome =
      Outcome.fallback (some [112]) none [100] :=
  (c5_dead_agent ⟨none, none, none, none⟩ (some [112]) none [100] 76 (by decide)).2.2.1 rfl

theorem getpin_loop_ok (ds : List (List Nat)) (okl : List Nat) (rest : List (List Nat))
    (pw : List Nat)
    (hds : ∀ l ∈ ds, l.head? = some 68 ∧ 3 ≤ l.length)
    (hok : [79, 75] <+: okl) :
    getpin_loop (ds ++ okl :: rest) pw =
      GetpinResult.assembled (pw ++ (ds.map (fun l => l.drop 2)).flatten) := by
  induction ds generalizing pw with
  | nil =>
    obtain ⟨u, rfl⟩ := hok
    simp only [List.nil_append, getpin_loop, List.cons_append]
    have hd : starts_with (79 :: 75 :: (u ++ [10])) dTok = false := by
      simp [starts_with, dTok, List.isPrefixOf]
    have hk : starts_with (79 :: 75 :: (u ++ [10])) okTok = true := by
      simp [starts_with, okTok, List.isPrefixOf]
    simp [hd, hk]
  | cons l ds ih =>
    obtain ⟨h68, hlen⟩ := hds l (List.mem_cons_self l ds)
    have hds2 : ∀ x ∈ ds, x.head? = some 68 ∧ 3 ≤ x.length :=
      fun x hx => hds x (List.mem_cons_of_mem l hx)
    cases l with
    | nil => simp at h68
    | cons a t =>
      have ha : a = 68 := by simpa using h68
      subst ha
      cases t with
      | nil => simp at hlen
      | cons b t2 =>
        have hd : starts_with (68 :: b :: (t2 ++ [10])) dTok = true := by
          simp [starts_with, dTok, List.isPrefixOf]
        have hlen3 : (68 :: b :: (t2 ++ [10])).length = t2.length + 3 := by
          simp only [List.length_cons, List.length_append, List.length_singleton,
            List.length_nil]
        have hcat : strlcat pw (List.drop 2 (68 :: b :: (t2 ++ [10])))
            (pw.length + 1 + (68 :: b :: (t2 ++ [10])).length - 3) = pw ++ t2 := by
          have hdrop : List.drop 2 (68 :: b :: (t2 ++ [10])) = t2 ++ [10] := by
            simp
          rw [hdrop, hlen3]
          have hsz : pw.length + 1 + (t2.length + 3) - 3 = pw.length + t2.length + 1 := by
            omega
          have hlt : pw.length < pw.length + t2.length + 1 := by omega
          rw [hsz]
          simp only [strlcat, if_pos hlt]
          have ht : pw.length + t2.length + 1 - pw.length - 1 = t2.length := by omega
          rw [ht, List.take_left]
        have hle : 3 ≤ (68 :: b :: (t2 ++ [10])).length := by
          rw [hlen3]; omega
        simp only [List.cons_append, getpin_loop]
        rw [hd]
        rw [if_pos rfl, if_pos hle, hcat]
        rw [show ds.append (okl :: rest) = ds ++ okl :: rest from rfl]
        rw [ih (pw ++ t2) hds2]
        simp

theorem payload_flatten_length (ds : List (List Nat)) :
    ((ds.map (fun l => l.drop 2)).flatten).length = (ds.map (fun l => l.length - 2)).sum := by
  induction ds with
  | nil => rfl
  | cons l ds ih => simp [ih]

/-- C1: in every session whose response stream after GETPIN is zero or more
lines beginning with 'D' of length at least 3 followed by a line beginning
with "OK", password_prompt returns pinentry_unescape of the concatenation of
the bytes after each two-character data-line prefix, and that assembled
pre-decode secret has grown by exactly length - 2 bytes per data line. -/
theorem c1_getpin_decode (env : Env) (prompt error : Option (List Nat)) (desc : List Nat)
    (status : Nat) (stream ds : List (List Nat)) (okl : List Nat) (p2 : Option (List Nat))
    (hpre : session_pre env prompt error stream = PreResult.ok (ds ++ [okl]) p2)
    (hds : ∀ l ∈ ds, l.head? = some 68 ∧ 3 ≤ l.length)
    (hok : [79, 75] <+: okl) :
    (run_session env prompt error desc stream status).1 =
      Outcome.returned (pinentry_unescape (some ((ds.map (fun l => l.drop 2)).flatten))) ∧
    ((ds.map (fun l => l.drop 2)).flatten).length = (ds.map (fun l => l.length - 2)).sum := by
  refine ⟨?_, payload_flatten_length ds⟩
  have h := getpin_loop_ok ds okl [] [] hds hok
  unfold run_session
  rw [hpre]
  simp [h, pinentry_unescape]

theorem c1_getpin_decode_witness :
    (run_session ⟨none, none, none, none⟩ none none []
        [[79, 75], [79, 75], [79, 75], [79, 75], [68, 32, 97, 98, 99],
         [68, 32, 100, 101, 102], [79, 75]] 0).1 =
      Outcome.returned (pinentry_unescape (some
        (([[68, 32, 97, 98, 99], [68, 32, 100, 101, 102]].map (fun l => l.drop 2)).flatten))) ∧
    (([[68, 32, 97, 98, 99], [68, 32, 100, 101, 102]].map (fun l => l.drop 2)).flatten).length =
      ([[68, 32, 97, 98, 99], [68, 32, 100, 101, 102]].map (fun l => l.length - 2)).sum :=
  c1_getpin_decode ⟨none, none, none, none⟩ none none [] 0
    [[79, 75], [79, 75], [79, 75], [79, 75], [68, 32, 97, 98, 99],
     [68, 32, 100, 101, 102], [79, 75]]
    [[68, 32, 97, 98, 99], [68, 32, 100, 101, 102]] [79, 75] none
    (by decide) (by decide) ⟨[], by simp⟩

/-- C2: evaluating the session driver on a GETPIN stream in which the line
"D abc" is followed by "ERR 1 cancelled" shows the partial secret [97, 98,
99] released with no preceding wipe (the bare free at src/password.c line
266), while on the stream where "D abc" is followed by "OK" the raw escaped
buffer is wiped before its release; the unwiped release contradicts the
stated invariant that no secret buffer is freed without being zeroed. -/
theorem c2_secret_wipe_events :
    (run_session ⟨none, none, none, none⟩ none none []
        [[79, 75], [79, 75], [79, 75], [79, 75], [68, 32, 97, 98, 99],
         [69, 82, 82, 32, 49, 32, 99, 97, 110, 99, 101, 108, 108, 101, 100]] 0).2 =
      [⟨[97, 98, 99], false⟩] ∧
    [97, 98, 99] ≠ List.replicate 3 (0 : Nat) ∧
    (run_session ⟨none, none, none, none⟩ none none []
        [[79, 75], [79, 75], [79, 75], [79, 75], [68, 32, 97, 98, 99], [79, 75]] 0).2 =
      [⟨[97, 98, 99], true⟩] := by
  decide

/-- C4 counterexample: with TERM set to "vt100", a session whose responses
are four "OK" lines and then "ERR" for the ttytype OPTION command is aborted
to the dead-agent path — with exit status 5 the process dies fatally — even
though the stream continues with "D abc" and "OK", which a tolerated option
failure would have turned into the returned secret "abc". -/
theorem c4_counterexample :
    (run_session ⟨none, some [118, 116, 49, 48, 48], none, none⟩ none none []
        [[79, 75], [79, 75], [79, 75], [79, 75], [69, 82, 82],
         [68, 32, 97, 98, 99], [79, 75]] 5).1 = Outcome.fatal ∧
    (run_session ⟨none, some [118, 116, 49, 48, 48], none, none⟩ none none []
        [[79, 75], [79, 75], [79, 75], [79, 75], [69, 82, 82],
         [68, 32, 97, 98, 99], [79, 75]] 0).1 ≠
      Outcome.returned (some [97, 98, 99]) := by
  decide

/-- C4 (amended): a response to an OPTION command that does not begin with
"OK" is not tolerated: it aborts the session through the dead-agent path
exactly as a failing configuration command does; an option is only skipped
when its source environment value is absent, in which case nothing is sent
and no response is read. -/
theorem c4_option_failure_aborts (env : Env) (prompt error : Option (List Nat))
    (desc : List Nat) (status : Nat) (stream : List (List Nat)) (p2 v : Option (List Nat))
    (l : List Nat) (tl : List (List Nat))
    (hcfg : config_pre prompt error stream = PreResult.ok (l :: tl) p2)
    (hterm : env.term = v) (hv : v.isSome = true)
    (hfail : starts_with (l ++ [10]) okTok = false) :
    run_session env prompt error desc stream status =
      dead_pinentry status p2 error desc none := by
  obtain ⟨w, rfl⟩ : ∃ w, v = some w := by
    cases v with
    | none => simp at hv
    | some w => exact ⟨w, rfl⟩
  have hopt : options_pre env (l :: tl) = none := by
    unfold options_pre
    rw [hterm]
    simp [optionConsume, checkConsume, hfail]
  unfold run_session session_pre
  rw [hcfg]
  simp [hopt]

theorem c4_option_failure_aborts_witness :
    run_session ⟨none, some [118, 116, 49, 48, 48], none, none⟩ none none []
        [[79, 75], [79, 75], [79, 75], [79, 75], [69, 82, 82],
         [68, 32, 97, 98, 99], [79, 75]] 5 =
      dead_pinentry 5 none none [] none :=
  c4_option_failure_aborts ⟨none, some [118, 116, 49, 48, 48], none, none⟩ none none [] 5
    [[79, 75], [79, 75], [79, 75], [79, 75], [69, 82, 82],
     [68, 32, 97, 98, 99], [79, 75]]
    none (some [118, 116, 49, 48, 48]) [69, 82, 82]
    [[68, 32, 97, 98, 99], [79, 75]]
    (by decide) rfl rfl (by decide)
